import Mathlib

/-!
Verification development for the URL-indexing batch submitter.

The program under study is `src/backend/indexing_script.py` together with its
historical variants under `src/.history/backend/`.  The core of the program is:

* `send_url` (current script, lines 17-29): posts one URL notification, retries
  up to 3 times on `ServerDisconnectedError` with a constant 2-second sleep and,
  after the retries are exhausted, returns the literal JSON error body
  `\x7b"error": \x7b"code": 500, "message": "Server Disconnected"\x7d\x7d`.
* `indexURL` (current script, lines 31-55): gathers one `send_url` result per
  input URL, parses each result with `json.loads` and counts it as successful,
  rate limited (error code 429) or other failure.
* Historical variants: `indexing_script_20251127145131.py` (adds a 30-second
  request timeout, a generic exception handler, and a `json.JSONDecodeError`
  handler in the aggregation loop) and `single_url_script_20251127125542.py`
  (retries rate-limited and malformed responses inside the submitter itself).

Python values produced by `json.loads` are embedded as the inductive `Json`
below, and `json.loads` itself as the executable parser `jsonLoads`.  The
parser covers the JSON fragment the program can encounter in these claims:
null, booleans, integers (floating-point literals are rejected), strings with
the single-character escapes, arrays and objects.  Statements that a Python
expression raises are embedded as `Option`/`none` results.
-/

/-- Embedding of the Python values that `json.loads` can return. -/
inductive Json where
  | null
  | bool (b : Bool)
  | num (n : Int)
  | str (s : String)
  | arr (elems : List Json)
  | obj (fields : List (String × Json))

/-- Terminal classification of one URL submission, mirroring the three
counters `successful_urls`, `error_429_count` and `other_errors_count` of
`indexURL` in `src/backend/indexing_script.py`. -/
inductive Outcome where
  | successful
  | rateLimited
  | otherFailed
deriving DecidableEq, Repr

/-- Aggregate result of one batch, as described by the completion message of
`indexURL`: `total` is the number of input URLs, the other three fields are the
three counters. -/
structure Tally where
  total : Nat
  successful : Nat
  rateLimited : Nat
  otherFailed : Nat
deriving DecidableEq, Repr

/-- The opening-brace character, kept out of string literals. -/
def lbraceChar : Char := Char.ofNat 123

/-- The closing-brace character, kept out of string literals. -/
def rbraceChar : Char := Char.ofNat 125

/-- JSON whitespace characters accepted between tokens by `json.loads`. -/
def isJsonWs (c : Char) : Bool :=
  c = ' ' || c = '\t' || c = '\n' || c = '\r'

/-- Drop leading JSON whitespace. -/
def skipWs : List Char → List Char
  | [] => []
  | c :: cs => if isJsonWs c then skipWs cs else c :: cs

/-- Decode one single-character string escape (the `\uXXXX` form is outside
the fragment used by this program and is rejected). -/
def escChar (c : Char) : Option Char :=
  if c = '"' then some '"'
  else if c = '\\' then some '\\'
  else if c = '/' then some '/'
  else if c = 'n' then some '\n'
  else if c = 't' then some '\t'
  else if c = 'r' then some '\r'
  else if c = 'b' then some (Char.ofNat 8)
  else if c = 'f' then some (Char.ofNat 12)
  else none

/-- Parse the body of a JSON string after its opening quote, returning the
decoded string and the input following the closing quote. -/
def parseStrChars : List Char → List Char → Option (String × List Char)
  | _, [] => none
  | _, '\\' :: [] => none
  | acc, '\\' :: e :: cs =>
    match escChar e with
    | some ec => parseStrChars (ec :: acc) cs
    | none => none
  | acc, c :: cs =>
    if c = '"' then some (⟨acc.reverse⟩, cs)
    else parseStrChars (c :: acc) cs

/-- Take the longest leading run of decimal digits. -/
def parseDigits : List Char → List Char → List Char × List Char
  | acc, c :: cs => if c.isDigit then parseDigits (c :: acc) cs else (acc.reverse, c :: cs)
  | acc, [] => (acc.reverse, [])

/-- Numeric value of a digit run. -/
def digitsToNat (ds : List Char) : Nat :=
  ds.foldl (fun n c => n * 10 + (c.toNat - 48)) 0

/-- Parse an unsigned JSON integer.  Leading zeros are rejected as in JSON;
a following `.`, `e` or `E` marks a floating-point literal, which is outside
the embedded fragment and rejected. -/
def parseNumNat (cs : List Char) : Option (Nat × List Char) :=
  match parseDigits [] cs with
  | ([], _) => none
  | (ds, rest) =>
    if ds.length > 1 && ds.head? == some '0' then none
    else
      match rest with
      | c :: _ =>
        if c = '.' || c = 'e' || c = 'E' then none
        else some (digitsToNat ds, rest)
      | [] => some (digitsToNat ds, [])

/-- Parse a JSON integer with optional sign. -/
def parseNum (input : List Char) : Option (Int × List Char) :=
  match input with
  | '-' :: cs => (parseNumNat cs).map (fun p => (-(p.1 : Int), p.2))
  | _ => (parseNumNat input).map (fun p => ((p.1 : Int), p.2))

mutual

/-- Recursive-descent parser for one JSON value.  The fuel argument only
bounds the recursion depth; `jsonLoads` supplies enough fuel for any input. -/
def parseVal : Nat → List Char → Option (Json × List Char)
  | 0, _ => none
  | fuel + 1, input =>
    match skipWs input with
    | 'n' :: 'u' :: 'l' :: 'l' :: rest => some (.null, rest)
    | 't' :: 'r' :: 'u' :: 'e' :: rest => some (.bool true, rest)
    | 'f' :: 'a' :: 'l' :: 's' :: 'e' :: rest => some (.bool false, rest)
    | c :: cs =>
      if c = '"' then
        match parseStrChars [] cs with
        | some (s, rest) => some (.str s, rest)
        | none => none
      else if c = lbraceChar then
        match skipWs cs with
        | d :: rest2 =>
          if d = rbraceChar then some (.obj [], rest2)
          else parseMembers fuel [] (d :: rest2)
        | [] => none
      else if c = '[' then
        match skipWs cs with
        | d :: rest2 =>
          if d = ']' then some (.arr [], rest2)
          else parseElems fuel [] (d :: rest2)
        | [] => none
      else
        match parseNum (c :: cs) with
        | some (n, rest) => some (.num n, rest)
        | none => none
    | [] => none

/-- Parse the members of a JSON object after its opening brace (at least one
member present). -/
def parseMembers : Nat → List (String × Json) → List Char → Option (Json × List Char)
  | 0, _, _ => none
  | fuel + 1, acc, input =>
    match skipWs input with
    | c :: cs =>
      if c = '"' then
        match parseStrChars [] cs with
        | some (k, r1) =>
          match skipWs r1 with
          | ':' :: r2 =>
            match parseVal fuel r2 with
            | some (v, r3) =>
              match skipWs r3 with
              | ',' :: r4 => parseMembers fuel (acc ++ [(k, v)]) r4
              | d :: r4 =>
                if d = rbraceChar then some (.obj (acc ++ [(k, v)]), r4) else none
              | [] => none
            | none => none
          | _ => none
        | none => none
      else none
    | [] => none

/-- Parse the elements of a JSON array after its opening bracket (at least one
element present). -/
def parseElems : Nat → List Json → List Char → Option (Json × List Char)
  | 0, _, _ => none
  | fuel + 1, acc, input =>
    match parseVal fuel input with
    | some (v, r1) =>
      match skipWs r1 with
      | ',' :: r2 => parseElems fuel (acc ++ [v]) r2
      | ']' :: r2 => some (.arr (acc ++ [v]), r2)
      | _ => none
    | none => none

end

/-- Embedding of `json.loads`: parse a whole document, requiring only
whitespace after the value.  `none` embeds a raised `json.JSONDecodeError`. -/
def jsonLoads (s : String) : Option Json :=
  match parseVal (2 * s.length + 2) s.data with
  | some (j, rest) => if skipWs rest = [] then some j else none
  | none => none

/-- Does the needle occur at the head of the haystack? -/
def charsStart : List Char → List Char → Bool
  | [], _ => true
  | _ :: _, [] => false
  | a :: as, b :: bs => a == b && charsStart as bs

/-- Substring test on character lists, embedding the Python expression
`needle in haystack` for strings. -/
def charsContain (needle : List Char) : List Char → Bool
  | [] => charsStart needle []
  | c :: t => charsStart needle (c :: t) || charsContain needle t

/-- Python dictionary lookup `d[k]` on a parsed JSON object.  `json.loads`
builds a `dict`, so a duplicated key keeps its last binding. -/
def lookupKey (fields : List (String × Json)) (k : String) : Option Json :=
  match fields.reverse.find? (fun p => p.1 == k) with
  | some p => some p.2
  | none => none

/-- Python membership `k in d` for a parsed JSON object. -/
def hasKey (fields : List (String × Json)) (k : String) : Bool :=
  (lookupKey fields k).isSome

/-- The dictionary key `error` tested by the classification loop. -/
def errorKey : String := "error"

/-- The dictionary key `code` read from the error object. -/
def codeKey : String := "code"

/-- The dictionary key `message` read from the error object by the single-URL
variant. -/
def messageKey : String := "message"

/-- Is a parsed JSON value the Python string `error`?  Used for Python list
membership, which compares elements with `==`. -/
def isErrorStr : Json → Bool
  | .str s => s == errorKey
  | _ => false

/-- Embedding of the Python expression `"error" in data` for an arbitrary
`json.loads` result: key membership on a dict, substring test on a str,
element membership on a list, and a raised `TypeError` (`none`) on the
remaining types. -/
def errorMembership : Json → Option Bool
  | .obj fields => some (hasKey fields errorKey)
  | .str s => some (charsContain errorKey.data s.data)
  | .arr xs => some (xs.any isErrorStr)
  | _ => none

/-- Embedding of the classification branch of `indexURL`
(src/backend/indexing_script.py lines 46-53) applied to one parsed result:

    if "error" in data:
        if data["error"]["code"] == 429: error_429_count += 1
        else: other_errors_count += 1
    else: successful_urls += 1

`none` embeds a raised exception (a `TypeError` from `in` or from subscripting
a non-dict, or a `KeyError` for a missing `code`); a non-integer code compares
unequal to 429 in Python and lands in the other-errors branch. -/
def classify (data : Json) : Option Outcome :=
  match errorMembership data with
  | none => none
  | some false => some .successful
  | some true =>
    match data with
    | .obj fields =>
      match lookupKey fields errorKey with
      | some (.obj ef) =>
        match lookupKey ef codeKey with
        | some (.num c) => if c = 429 then some .rateLimited else some .otherFailed
        | some _ => some .otherFailed
        | none => none
      | some _ => none
      | none => none
    | _ => none

/-- One loop iteration of the aggregation in the current script: parse the
response text, then classify; any raised exception (`none`) aborts `indexURL`
because the loop body has no exception handler
(src/backend/indexing_script.py lines 45-53). -/
def classifyBody (body : String) : Option Outcome :=
  (jsonLoads body).bind classify

/-- One loop iteration of the aggregation in the historical variant
src/.history/backend/indexing_script_20251127145131.py lines 71-82: the loop
body catches `json.JSONDecodeError` and counts the entry as an other error,
but exceptions raised by the classification itself still propagate. -/
def classifyBodyHist (body : String) : Option Outcome :=
  match jsonLoads body with
  | none => some .otherFailed
  | some data => classify data

/-- Classify every gathered response in order, aborting at the first raised
exception, as the `for result in results` loop does. -/
def classifyAllWith (f : String → Option Outcome) : List String → Option (List Outcome)
  | [] => some []
  | b :: rest =>
    match f b with
    | none => none
    | some o => (classifyAllWith f rest).map (fun l => o :: l)

/-- Number of outcomes equal to `o` in a list of outcomes. -/
def countOutcome (o : Outcome) (l : List Outcome) : Nat :=
  l.countP (fun x => decide (x = o))

/-- The tally reported for a batch: the URL count as total, and the three
counters accumulated by the aggregation loop. -/
def tallyMk (bodies : List String) (outs : List Outcome) : Tally :=
  ⟨bodies.length, countOutcome .successful outs, countOutcome .rateLimited outs,
    countOutcome .otherFailed outs⟩

/-- Aggregation of a list of response bodies with a given per-body
classifier; `none` embeds an exception escaping the aggregation loop. -/
def aggregateWith (f : String → Option Outcome) (bodies : List String) : Option Tally :=
  (classifyAllWith f bodies).map (tallyMk bodies)

/-- Aggregation step of `indexURL` in the current script
(src/backend/indexing_script.py lines 45-55). -/
def aggregate (bodies : List String) : Option Tally :=
  aggregateWith classifyBody bodies

/-- Aggregation step of `indexURL` in the historical variant
src/.history/backend/indexing_script_20251127145131.py lines 71-89. -/
def aggregateHist (bodies : List String) : Option Tally :=
  aggregateWith classifyBodyHist bodies

/-- One transport-level event observed by one attempt of the submitter:
a response whose text is `s`, a raised `ServerDisconnectedError`, or any other
raised exception. -/
inductive TransportEvent where
  | body (s : String)
  | disconnected
  | raised

/-- Result of one `send_url` call: the returned response text (`none` embeds
an exception escaping `send_url`), the number of POST requests issued, and the
list of sleep durations (in seconds) performed, in order. -/
structure SendResult where
  response : Option String
  attempts : Nat
  sleeps : List Nat
deriving DecidableEq, Repr

/-- The literal fallback body returned by `send_url` in the current script
after its retries are exhausted (src/backend/indexing_script.py line 29). -/
def serverDisconnectedBody : String :=
  "\x7b\"error\": \x7b\"code\": 500, \"message\": \"Server Disconnected\"\x7d\x7d"

/-- The literal fallback body returned by the historical variant
src/.history/backend/indexing_script_20251127145131.py line 46. -/
def serverDisconnectedBodyHist : String :=
  "\x7b\"error\": \x7b\"code\": 500, \"message\": \"Server Disconnected after multiple retries\"\x7d\x7d"

/-- Loop of `send_url` in the current script (src/backend/indexing_script.py
lines 22-29): `t a` is the transport event of attempt index `a`; a response is
returned immediately, a `ServerDisconnectedError` sleeps a constant 2 seconds
and retries, any other exception propagates, and after 3 attempts the literal
fallback body is returned. -/
def send_urlGo (t : Nat → TransportEvent) : Nat → Nat → List Nat → SendResult
  | 0, a, sl => ⟨some serverDisconnectedBody, a, sl⟩
  | n + 1, a, sl =>
    match t a with
    | .body s => ⟨some s, a + 1, sl⟩
    | .disconnected => send_urlGo t n (a + 1) (sl ++ [2])
    | .raised => ⟨none, a + 1, sl⟩

/-- Embedding of `send_url` from src/backend/indexing_script.py lines 17-29. -/
def send_url (t : Nat → TransportEvent) : SendResult :=
  send_urlGo t 3 0 []

/-- Loop of `send_url` in the historical variant
src/.history/backend/indexing_script_20251127145131.py lines 27-46: the
disconnect sleep happens only before the last attempt (`if attempt < 2`), and
a generic handler catches any other exception, breaks the loop and falls
through to the literal fallback body. -/
def send_url_histGo (t : Nat → TransportEvent) : Nat → Nat → List Nat → SendResult
  | 0, a, sl => ⟨some serverDisconnectedBodyHist, a, sl⟩
  | n + 1, a, sl =>
    match t a with
    | .body s => ⟨some s, a + 1, sl⟩
    | .disconnected => send_url_histGo t n (a + 1) (sl ++ if a < 2 then [2] else [])
    | .raised => ⟨some serverDisconnectedBodyHist, a + 1, sl⟩

/-- Embedding of `send_url` from
src/.history/backend/indexing_script_20251127145131.py lines 17-46. -/
def send_url_hist (t : Nat → TransportEvent) : SendResult :=
  send_url_histGo t 3 0 []

/-- Result of one `send_single_url` call from the single-URL variant: the
boolean it returns, the number of POST requests issued, and the sleeps
performed in order. -/
structure SingleResult where
  success : Bool
  attempts : Nat
  sleeps : List Nat
deriving DecidableEq, Repr

/-- Sleeps performed by one attempt of `send_single_url`
(src/.history/backend/single_url_script_20251127125542.py lines 27-74) with
attempt index `a`, or `none` when the attempt returns `True`.  A parsed body
with an `error` whose code is 429 sleeps `(a+1)*5` seconds; every other error
path (non-429 code, raised lookup, decode error, generic exception) sleeps 2
seconds when another attempt remains; a disconnect sleeps `(a+1)*2` seconds
when another attempt remains; a body without the `error` key returns `True`. -/
def singleAttemptSleeps (a : Nat) (e : TransportEvent) : Option (List Nat) :=
  match e with
  | .disconnected => some (if a < 2 then [(a + 1) * 2] else [])
  | .raised => some (if a < 2 then [2] else [])
  | .body s =>
    match jsonLoads s with
    | none => some (if a < 2 then [2] else [])
    | some data =>
      match errorMembership data with
      | none => some (if a < 2 then [2] else [])
      | some false => none
      | some true =>
        match data with
        | .obj fields =>
          match lookupKey fields errorKey with
          | some (.obj ef) =>
            if (lookupKey ef messageKey).isSome then
              match lookupKey ef codeKey with
              | some (.num c) =>
                if c = 429 then some [(a + 1) * 5]
                else some (if a < 2 then [2] else [])
              | _ => some (if a < 2 then [2] else [])
            else some (if a < 2 then [2] else [])
          | _ => some (if a < 2 then [2] else [])
        | _ => some (if a < 2 then [2] else [])

/-- Retry loop of `send_single_url`: up to 3 attempts, returning `True` on the
first successful body and `False` when the loop ends. -/
def send_single_urlGo (t : Nat → TransportEvent) : Nat → Nat → List Nat → SingleResult
  | 0, a, sl => ⟨false, a, sl⟩
  | n + 1, a, sl =>
    match singleAttemptSleeps a (t a) with
    | none => ⟨true, a + 1, sl⟩
    | some w => send_single_urlGo t n (a + 1) (sl ++ w)

/-- Embedding of `send_single_url` from
src/.history/backend/single_url_script_20251127125542.py lines 15-80. -/
def send_single_url (t : Nat → TransportEvent) : SingleResult :=
  send_single_urlGo t 3 0 []

/-- Drop leading whitespace characters. -/
def dropLeadingWs : List Char → List Char
  | [] => []
  | c :: cs => if c.isWhitespace then dropLeadingWs cs else c :: cs

/-- Embedding of the Python method `str.strip()` used on the URL: remove
leading and trailing whitespace. -/
def pyStrip (s : String) : String :=
  ⟨(dropLeadingWs ((dropLeadingWs s.data).reverse)).reverse⟩

/-- The fixed notification endpoint (constant `ENDPOINT` of the scripts). -/
def ENDPOINT : String := "https://indexing.googleapis.com/v3/urlNotifications:publish"

/-- The fields of the HTTP POST issued for one submission: the endpoint, the
two entries of the JSON body, the `Authorization` header value, whether TLS
verification is enabled, and the total request timeout in seconds (`none`
when the call relies on the session default). -/
structure NotificationRequest where
  endpoint : String
  bodyUrl : String
  bodyType : String
  authorization : String
  sslVerify : Bool
  timeoutTotal : Option Nat
deriving DecidableEq, Repr

/-- Request built by `send_url` in the current script
(src/backend/indexing_script.py lines 18-24): the body holds the stripped URL
and the fixed type, the header is `Bearer` plus the token, `ssl=False`, and no
per-request timeout is passed. -/
def send_urlRequest (http url : String) : NotificationRequest :=
  ⟨ENDPOINT, pyStrip url, "URL_UPDATED", "Bearer " ++ http, false, none⟩

/-- Request built by `send_url` in the historical variant
src/.history/backend/indexing_script_20251127145131.py lines 21-35, which
additionally passes `timeout=aiohttp.ClientTimeout(total=30)`. -/
def send_urlRequestHist (http url : String) : NotificationRequest :=
  ⟨ENDPOINT, pyStrip url, "URL_UPDATED", "Bearer " ++ http, false, some 30⟩

/-- Fan-in of `asyncio.gather` over one `send_url` task per URL in the current
script (src/backend/indexing_script.py lines 39-43): results are collected in
input order, and an exception escaping any task makes the whole gather raise
(`none`). -/
def gatherResponses (tr : String → Nat → TransportEvent) : List String → Option (List String)
  | [] => some []
  | u :: rest =>
    match (send_url (tr u)).response with
    | none => none
    | some b => (gatherResponses tr rest).map (fun l => b :: l)

/-- Embedding of `indexURL` in the current script
(src/backend/indexing_script.py lines 31-55): gather all responses, then run
the aggregation loop; `none` embeds the coroutine raising instead of reaching
its completion message. -/
def indexURL (tr : String → Nat → TransportEvent) (urls : List String) : Option Tally :=
  (gatherResponses tr urls).bind aggregate

/-- Fan-in of the historical variant, whose `send_url` never raises. -/
def gatherResponsesHist (tr : String → Nat → TransportEvent) : List String → Option (List String)
  | [] => some []
  | u :: rest =>
    match (send_url_hist (tr u)).response with
    | none => none
    | some b => (gatherResponsesHist tr rest).map (fun l => b :: l)

/-- Embedding of `indexURL` in the historical variant
src/.history/backend/indexing_script_20251127145131.py lines 48-92. -/
def indexURL_hist (tr : String → Nat → TransportEvent) (urls : List String) : Option Tally :=
  (gatherResponsesHist tr urls).bind aggregateHist

/-- Total number of POST requests issued by one batch of the current script. -/
def networkCalls (tr : String → Nat → TransportEvent) (urls : List String) : Nat :=
  (urls.map (fun u => (send_url (tr u)).attempts)).sum

/-- A response body that is not parseable JSON (from the spec test table). -/
def notJsonBody : String := "not json"

/-- A success body: a JSON object without the `error` key. -/
def emptyObjBody : String := "\x7b\x7d"

/-- A well-formed rate-limit body (from the spec test table). -/
def body429 : String := "\x7b\"error\":\x7b\"code\":429,\"message\":\"x\"\x7d\x7d"

/-- A genuine server response carrying error code 500, distinct from the
fallback body produced after exhausted retries. -/
def genuine500Body : String :=
  "\x7b\"error\": \x7b\"code\": 500, \"message\": \"backend failure\"\x7d\x7d"

/-- Mock transport that always answers with the rate-limit body. -/
def always429 : Nat → TransportEvent := fun _ => .body body429

/-- Mock transport whose every attempt raises `ServerDisconnectedError`. -/
def alwaysDisconnect : Nat → TransportEvent := fun _ => .disconnected

/-- Mock transport that always answers with the unparsable body. -/
def alwaysNotJson : Nat → TransportEvent := fun _ => .body notJsonBody

/-- Mock transport whose every attempt raises an unexpected exception. -/
def alwaysRaise : Nat → TransportEvent := fun _ => .raised

/-- Per-URL mock transport for a two-URL batch: the URL `a` receives a success
body, every other URL hits an unexpected exception. -/
def mixedTransport : String → Nat → TransportEvent :=
  fun u _ => if u = "a" then .body emptyObjBody else .raised

/-- Effect of one classified outcome on the accumulated counters. -/
def bumpTally (o : Outcome) (t : Tally) : Tally :=
  match o with
  | .successful => ⟨t.total + 1, t.successful + 1, t.rateLimited, t.otherFailed⟩
  | .rateLimited => ⟨t.total + 1, t.successful, t.rateLimited + 1, t.otherFailed⟩
  | .otherFailed => ⟨t.total + 1, t.successful, t.rateLimited, t.otherFailed + 1⟩

lemma classifyAllWith_length (f : String → Option Outcome) :
    ∀ bodies outs, classifyAllWith f bodies = some outs → outs.length = bodies.length := by
  intro bodies
  induction bodies with
  | nil =>
    intro outs h
    simp [classifyAllWith] at h
    simp [← h]
  | cons b rest ih =>
    intro outs h
    simp only [classifyAllWith] at h
    cases hf : f b with
    | none => rw [hf] at h; simp at h
    | some o =>
      rw [hf] at h
      rw [Option.map_eq_some'] at h
      obtain ⟨l, hc, hl⟩ := h
      rw [← hl]
      simp [ih l hc]

lemma countOutcome_partition (l : List Outcome) :
    countOutcome .successful l + countOutcome .rateLimited l + countOutcome .otherFailed l
      = l.length := by
  induction l with
  | nil => rfl
  | cons o t ih =>
    cases o <;> simp [countOutcome, List.countP_cons] at ih ⊢ <;> omega

lemma aggregateWith_invariant (f : String → Option Outcome) (bodies : List String) (t : Tally)
    (h : aggregateWith f bodies = some t) :
    t.total = bodies.length ∧ t.successful + t.rateLimited + t.otherFailed = t.total := by
  simp only [aggregateWith, Option.map_eq_some'] at h
  obtain ⟨outs, hc, ht⟩ := h
  rw [← ht]
  refine ⟨rfl, ?_⟩
  simpa [tallyMk, classifyAllWith_length f bodies outs hc] using countOutcome_partition outs

lemma tallyMk_cons (b : String) (bodies : List String) (o : Outcome) (outs : List Outcome) :
    tallyMk (b :: bodies) (o :: outs) = bumpTally o (tallyMk bodies outs) := by
  cases o <;> simp [tallyMk, bumpTally, countOutcome, List.countP_cons]

lemma aggregateWith_cons_none (f : String → Option Outcome) (b : String) (l : List String)
    (h : f b = none) : aggregateWith f (b :: l) = none := by
  simp [aggregateWith, classifyAllWith, h]

lemma aggregateWith_cons_some (f : String → Option Outcome) (b : String) (l : List String)
    (o : Outcome) (h : f b = some o) :
    aggregateWith f (b :: l) = (aggregateWith f l).map (bumpTally o) := by
  simp only [aggregateWith, classifyAllWith, h]
  cases hc : classifyAllWith f l with
  | none => simp
  | some outs => simp [tallyMk_cons]

lemma bumpTally_comm (o p : Outcome) (t : Tally) :
    bumpTally o (bumpTally p t) = bumpTally p (bumpTally o t) := by
  cases o <;> cases p <;> simp [bumpTally]

lemma aggregateWith_perm (f : String → Option Outcome) {l1 l2 : List String}
    (h : l1.Perm l2) : aggregateWith f l1 = aggregateWith f l2 := by
  induction h with
  | nil => rfl
  | cons x _ ih =>
    cases hx : f x with
    | none => rw [aggregateWith_cons_none f x _ hx, aggregateWith_cons_none f x _ hx]
    | some o => rw [aggregateWith_cons_some f x _ o hx, aggregateWith_cons_some f x _ o hx, ih]
  | swap x y l =>
    cases hx : f x with
    | none =>
      cases hy : f y with
      | none => rw [aggregateWith_cons_none f y _ hy, aggregateWith_cons_none f x _ hx]
      | some p =>
        rw [aggregateWith_cons_some f y _ p hy, aggregateWith_cons_none f x _ hx,
          aggregateWith_cons_none f x _ hx]
        rfl
    | some o =>
      cases hy : f y with
      | none =>
        rw [aggregateWith_cons_none f y _ hy, aggregateWith_cons_some f x _ o hx,
          aggregateWith_cons_none f y _ hy]
        rfl
      | some p =>
        rw [aggregateWith_cons_some f y _ p hy, aggregateWith_cons_some f x _ o hx,
          aggregateWith_cons_some f x _ o hx, aggregateWith_cons_some f y _ p hy]
        cases aggregateWith f l <;> simp [bumpTally_comm]
  | trans _ _ ih1 ih2 => exact ih1.trans ih2

/-- Claim C1, counterexample: in the current script one unparsable response
body makes the aggregation raise instead of producing a Tally, so the batch
for one URL yields no Tally at all and the body is not counted as an other
failure. -/
theorem C1_counterexample :
    aggregate [notJsonBody] = none ∧ aggregate [notJsonBody] ≠ some ⟨1, 0, 0, 1⟩ := by
  decide

/-- Claim C1, amended: whenever the aggregation of the current script (or of
the historical variant) completes, the Tally satisfies total = length(urls)
and successful + rateLimited + otherFailed = total; an unparsable body is
counted as otherFailed only by the historical variant, while in the current
script it raises during classification and aborts the aggregation. -/
theorem C1_tally_invariants :
    (∀ bodies t, aggregate bodies = some t →
        t.total = bodies.length ∧ t.successful + t.rateLimited + t.otherFailed = t.total)
  ∧ (∀ bodies t, aggregateHist bodies = some t →
        t.total = bodies.length ∧ t.successful + t.rateLimited + t.otherFailed = t.total)
  ∧ (∀ b, jsonLoads b = none →
        classifyBody b = none ∧ classifyBodyHist b = some Outcome.otherFailed)
  ∧ (∀ b rest, jsonLoads b = none → aggregate (b :: rest) = none) := by
  refine ⟨fun bodies t h => aggregateWith_invariant _ bodies t h,
    fun bodies t h => aggregateWith_invariant _ bodies t h, ?_, ?_⟩
  · intro b hb
    exact ⟨by simp [classifyBody, hb], by simp [classifyBodyHist, hb]⟩
  · intro b rest hb
    exact aggregateWith_cons_none _ b rest (by simp [classifyBody, hb])

/-- Claim C1, witness: the invariants evaluated on a concrete three-body batch
and on the concrete unparsable body. -/
theorem C1_witness :
    ((Tally.mk 3 1 1 1).total = [emptyObjBody, body429, genuine500Body].length
      ∧ (Tally.mk 3 1 1 1).successful + (Tally.mk 3 1 1 1).rateLimited
          + (Tally.mk 3 1 1 1).otherFailed = (Tally.mk 3 1 1 1).total)
  ∧ classifyBodyHist notJsonBody = some Outcome.otherFailed
  ∧ aggregate (notJsonBody :: [emptyObjBody]) = none :=
  ⟨C1_tally_invariants.1 [emptyObjBody, body429, genuine500Body] ⟨3, 1, 1, 1⟩ (by decide),
    (C1_tally_invariants.2.2.1 notJsonBody (by rfl)).2,
    C1_tally_invariants.2.2.2 notJsonBody [emptyObjBody] (by rfl)⟩

/-- Claim C2: for a response parsed as a JSON object, an error entry with code
429 is classified rate limited, an error entry with any other integer code is
classified as an other failure, and an object without the error key is
classified successful; the classifier returns a single Outcome, so each such
response lands in exactly one of the three counters. -/
theorem C2_classification (fields : List (String × Json)) :
    (∀ ef c, lookupKey fields errorKey = some (Json.obj ef) →
        lookupKey ef codeKey = some (Json.num c) →
        classify (Json.obj fields)
          = some (if c = 429 then Outcome.rateLimited else Outcome.otherFailed))
  ∧ (lookupKey fields errorKey = none → classify (Json.obj fields) = some Outcome.successful) := by
  constructor
  · intro ef c h1 h2
    simp [classify, errorMembership, hasKey, h1, h2]
    split <;> rfl
  · intro h1
    simp [classify, errorMembership, hasKey, h1]

/-- Claim C2, witness: the classification evaluated on a concrete 429 object
and on a concrete object without the error key. -/
theorem C2_witness :
    classify (Json.obj [(errorKey, Json.obj [(codeKey, Json.num 429)])])
        = some Outcome.rateLimited
  ∧ classify (Json.obj []) = some Outcome.successful := by
  constructor
  · have h := (C2_classification [(errorKey, Json.obj [(codeKey, Json.num 429)])]).1
      [(codeKey, Json.num 429)] 429 (by rfl) (by rfl)
    simpa using h
  · exact (C2_classification []).2 (by rfl)

/-- Claim C3, counterexample: against a transport that always answers the
well-formed 429 body, `send_url` of the current script returns on the first
response and issues exactly one request, not three. -/
theorem C3_counterexample :
    (send_url always429).attempts = 1 ∧ (send_url always429).attempts ≠ 3 := by
  decide

/-- Claim C3, amended: the current script never retries a 429 response — it is
returned on the first attempt and classified RateLimited; the 3-attempt retry
with a 5-second-per-attempt backoff exists only in the single-URL variant,
which attempts exactly 3 times, sleeps 5, 10 and 15 seconds after attempts 1,
2 and 3, and terminally reports failure (False), not a rate-limited outcome. -/
theorem C3_rate_limit_behavior :
    (send_url always429).attempts = 1
  ∧ (send_url always429).response = some body429
  ∧ classifyBody body429 = some Outcome.rateLimited
  ∧ send_single_url always429 = ⟨false, 3, [5, 10, 15]⟩ := by
  decide

/-- Claim C4, counterexample: for the unparsable body the current script does
issue exactly one request, but the terminal result is an aborted aggregation
(no Tally and no otherFailed count), and the single-URL variant even retries
the malformed body three times. -/
theorem C4_counterexample :
    (send_url alwaysNotJson).attempts = 1
  ∧ aggregate [notJsonBody] ≠ some ⟨1, 0, 0, 1⟩
  ∧ (send_single_url alwaysNotJson).attempts = 3 := by
  decide

/-- Claim C4, amended: in the current script a malformed body is returned
after exactly one request with no retry, but counting it as otherFailed
happens only in the historical batch variant; in the current script the
aggregation raises a decode error and produces no Tally, and in the
single-URL variant the malformed body is retried for 3 attempts. -/
theorem C4_malformed_behavior :
    send_url alwaysNotJson = ⟨some notJsonBody, 1, []⟩
  ∧ aggregate [notJsonBody] = none
  ∧ classifyBodyHist notJsonBody = some Outcome.otherFailed
  ∧ aggregateHist [notJsonBody] = some ⟨1, 0, 0, 1⟩
  ∧ send_single_url alwaysNotJson = ⟨false, 3, [2, 2]⟩ := by
  decide

/-- Claim C5, counterexample: under permanent transport failure the current
script sleeps a constant 2 seconds after every failed attempt, giving the
sleep schedule [2, 2, 2] rather than the claimed 2-then-4 schedule. -/
theorem C5_counterexample :
    (send_url alwaysDisconnect).sleeps = [2, 2, 2]
  ∧ (send_url alwaysDisconnect).sleeps ≠ [2, 4] := by
  decide

/-- Claim C5, amended: the current script retries transport failures up to 3
total attempts and, after the 3rd, returns the fallback error body (classified
otherFailed) instead of raising, but its backoff is a constant 2 seconds after
each of the three failures; the 2-seconds-times-attempt schedule [2, 4] occurs
only in the single-URL variant. -/
theorem C5_transport_retry_behavior :
    send_url alwaysDisconnect = ⟨some serverDisconnectedBody, 3, [2, 2, 2]⟩
  ∧ classifyBody serverDisconnectedBody = some Outcome.otherFailed
  ∧ send_single_url alwaysDisconnect = ⟨false, 3, [2, 4]⟩ := by
  decide

/-- Claim C6, counterexample: the current script catches only
`ServerDisconnectedError`, so an unexpected exception escapes `send_url`
(response `none`) and the whole two-URL batch produces no Tally. -/
theorem C6_counterexample :
    (send_url alwaysRaise).response = none
  ∧ indexURL mixedTransport ["a", "b"] = none := by
  decide

/-- Claim C6, amended: in the current script an unexpected exception in one
submission propagates through the gather and aborts the whole batch; only the
historical batch variant catches it, returns its fallback error body for that
URL alone (counted otherFailed), and still produces a Tally covering every
URL. -/
theorem C6_unexpected_exception_behavior :
    (send_url_hist alwaysRaise).response = some serverDisconnectedBodyHist
  ∧ classifyBody serverDisconnectedBodyHist = some Outcome.otherFailed
  ∧ indexURL_hist mixedTransport ["a", "b"] = some ⟨2, 1, 0, 1⟩
  ∧ indexURL mixedTransport ["a", "b"] = none := by
  decide

/-- A concrete token used to evaluate the request shape. -/
def sampleToken : String := "tok"

/-- A concrete URL with surrounding whitespace. -/
def sampleUrl : String := "  https://a.example/p1 "

/-- Claim C7, counterexample: the current script passes no per-request
timeout, so the request carries the session default rather than a 30-second
bound. -/
theorem C7_counterexample :
    (send_urlRequest sampleToken sampleUrl).timeoutTotal = none
  ∧ (send_urlRequest sampleToken sampleUrl).timeoutTotal ≠ some 30 := by
  decide

/-- Claim C7, amended: every submission of the current script posts to the
fixed endpoint with body url = trimmed input URL and type URL_UPDATED and an
Authorization header of Bearer followed by the token, but without a
per-request timeout; the 30-second timeout is set only in the historical
variant, whose request is otherwise identical. -/
theorem C7_request_shape (token url : String) :
    (send_urlRequest token url).endpoint = ENDPOINT
  ∧ (send_urlRequest token url).bodyUrl = pyStrip url
  ∧ (send_urlRequest token url).bodyType = "URL_UPDATED"
  ∧ (send_urlRequest token url).authorization = "Bearer " ++ token
  ∧ (send_urlRequest token url).timeoutTotal = none
  ∧ send_urlRequestHist token url
      = ⟨ENDPOINT, pyStrip url, "URL_UPDATED", "Bearer " ++ token, false, some 30⟩
  ∧ (send_urlRequest sampleToken sampleUrl).bodyUrl = "https://a.example/p1" := by
  refine ⟨rfl, rfl, rfl, rfl, rfl, rfl, ?_⟩
  decide

/-- Claim C8: on an empty URL list the batch of the current script raises no
error, returns the zero Tally, and issues no network call. -/
theorem C8_empty_batch (tr : String → Nat → TransportEvent) :
    indexURL tr [] = some ⟨0, 0, 0, 0⟩ ∧ networkCalls tr [] = 0 :=
  ⟨rfl, rfl⟩

/-- Claim C9: the aggregation of the current script is invariant under
permutation of the collected response bodies. -/
theorem C9_perm_invariant (b1 b2 : List String) (h : b1.Perm b2) :
    aggregate b1 = aggregate b2 :=
  aggregateWith_perm classifyBody h

/-- Claim C9, witness: permutation invariance evaluated on a concrete
two-body swap. -/
theorem C9_witness :
    aggregate [body429, genuine500Body] = aggregate [genuine500Body, body429] :=
  C9_perm_invariant [body429, genuine500Body] [genuine500Body, body429]
    (List.Perm.swap genuine500Body body429 [])

/-- Claim C10: after exhausting its disconnect retries, `send_url` of the
current script returns exactly the literal error-500 body, which the
aggregation classifies as otherFailed — the same classification as a genuine
server response with error code 500, so the two are indistinguishable in the
Tally. -/
theorem C10_exhausted_retries :
    (send_url alwaysDisconnect).response = some serverDisconnectedBody
  ∧ classifyBody serverDisconnectedBody = some Outcome.otherFailed
  ∧ classifyBody genuine500Body = some Outcome.otherFailed
  ∧ aggregate [serverDisconnectedBody] = aggregate [genuine500Body] := by
  decide

/-- Claim C7, witness: the amended request shape evaluated at the concrete
token and URL. -/
theorem C7_witness :
    (send_urlRequest sampleToken sampleUrl).authorization = "Bearer " ++ sampleToken
  ∧ (send_urlRequest sampleToken sampleUrl).timeoutTotal = none :=
  ⟨(C7_request_shape sampleToken sampleUrl).2.2.2.1,
    (C7_request_shape sampleToken sampleUrl).2.2.2.2.1⟩

/-- Claim C8, witness: the empty batch evaluated at a concrete transport. -/
theorem C8_witness :
    indexURL mixedTransport [] = some ⟨0, 0, 0, 0⟩ ∧ networkCalls mixedTransport [] = 0 :=
  C8_empty_batch mixedTransport
